import Mathlib

/-!
Verification of the control-loop core of the TMDU disk-usage tool
(src/dir_common.c and src/main.c) against its design specification.

The C code is shallowly embedded: C strings become `List Char` (no interior
NUL bytes, as produced by the C string functions used here), the global
mutable state of dir_common.c becomes the explicit record `DirState`, and
the argument parser's cursor struct becomes the record `Argparser`.
C `long`/`int` values that are nonnegative in every reachable state
(timestamps, the update delay, flag values) are modelled as `Nat`; the
`dir_ui` setting, whose initial value is -1, is an `Int`.
-/

namespace TMDU

/-- Character list of a string literal, used to write C string constants. -/
def cs (s : String) : List Char := s.toList

/-! ## dir_common.c: the path / error tracker -/

/-- The mutable globals of dir_common.c that the claims are about:
dir_curpath (full path of the last seen item), lasterr (path where the last
non-fatal error occurred, NULL when none) and dir_fatalerr (fatal error
message, NULL when none).  The allocation bookkeeping (curpathl, lasterrl)
only sizes buffers and does not affect the stored strings. -/
structure DirState where
  dir_curpath : List Char
  lasterr : Option (List Char)
  dir_fatalerr : Option (List Char)
deriving DecidableEq

/-- dir_curpath_set (dir_common.c lines 49-52): replace the whole path. -/
def dir_curpath_set (st : DirState) (path : List Char) : DirState :=
  { st with dir_curpath := path }

/-- dir_curpath_enter (dir_common.c lines 55-60): append a slash (only when
dir_curpath[1] is nonzero, i.e. the current path has at least two
characters) and then the segment name. -/
def dir_curpath_enter (s name : List Char) : List Char :=
  if 2 ≤ s.length then s ++ '/' :: name else s ++ name

/-- Index of the last occurrence of a character, the embedding of C
strrchr (pointer returned by strrchr minus the start of the string). -/
def strrchr_idx : List Char → Char → Option Nat
  | [], _ => none
  | a :: rest, c =>
    match strrchr_idx rest c with
    | some i => some (i + 1)
    | none => if a = c then some 0 else none

/-- dir_curpath_leave (dir_common.c lines 64-72): if the path has no '/',
reset it to "/"; if the last '/' is not the first character, truncate at
it (tmp[0] = 0); otherwise truncate right after it (tmp[1] = 0). -/
def dir_curpath_leave (s : List Char) : List Char :=
  match strrchr_idx s '/' with
  | none => ['/']
  | some i => if i = 0 then s.take 1 else s.take i

/-- dir_setlasterr (dir_common.c lines 75-88).  A NULL path clears the
recorded error.  Otherwise the buffer is resized from strlen(path)+1, but
the bytes copied into it on line 87 are those of dir_curpath, not of path:
the stored value is the current value of dir_curpath. -/
def dir_setlasterr (st : DirState) (path : Option (List Char)) : DirState :=
  match path with
  | none => { st with lasterr := none }
  | some _ => { st with lasterr := some st.dir_curpath }

/-- dir_seterr (dir_common.c lines 91-103): the previous message is freed
and the field cleared first; a NULL format leaves it cleared.  Otherwise a
1024-byte buffer is filled with vsnprintf(buf, 1023, ...), which writes at
most 1022 characters followed by a NUL terminator, and buf[1023] is zeroed
as well.  The argument here is the fully formatted message; the stored
C string is therefore its first 1022 characters. -/
def dir_seterr (st : DirState) (msg : Option (List Char)) : DirState :=
  match msg with
  | none => { st with dir_fatalerr := none }
  | some m => { st with dir_fatalerr := some (m.take 1022) }

/-- Which overlay dir_draw puts on the screen. -/
inductive DrawKind where
  | errorBox
  | progress
deriving DecidableEq

/-- dir_draw (dir_common.c lines 173-179): after browse_draw, the modal
error box (draw_error) is rendered when dir_fatalerr is set, and the
non-modal progress window (draw_progress) otherwise. -/
def dir_draw_kind (st : DirState) : DrawKind :=
  if st.dir_fatalerr.isSome then .errorBox else .progress

/-! ## main.c: the redraw/input scheduler (input_handle) -/

/-- What input_handle does after the draw decision (main.c lines 84-86):
when ncurses has not been initialized it returns immediately without
reading any input — returning wait == 0 ? 1 : 0 — and otherwise it
proceeds to the getch read loop.  Return value 1 is the Terminate signal
to the driver, 0 the keep-going signal. -/
inductive TickAction where
  | skipRead (ret : Nat)
  | readInput
deriving DecidableEq

/-- The ncurses-initialization gate of input_handle (main.c lines 84-88),
with the wait policy given as in the source: -1 non-blocking, 0 blocking,
1 throttled. -/
def input_handle_read_gate (ncurses_init : Bool) (wait : Int) : TickAction :=
  if ncurses_init = false then .skipRead (if wait = 0 then 1 else 0)
  else .readInput

/-- The state read and written by the throttled-redraw decision: the
static lastupdate (main.c line 49, initialized to 999) and the configured
update_delay in milliseconds (main.c line 39; 100 by default, 2000 with
-q; always positive). -/
structure ThrottleState where
  lastupdate : Nat
  update_delay : Nat
deriving DecidableEq

/-- The time bucket computed by input_handle for wait == 1 (main.c line
77): the number of milliseconds within the current 1000-second cycle,
divided by update_delay.  gettimeofday yields nonnegative sec and
0 ≤ usec < 1000000, so the C long arithmetic is Nat arithmetic. -/
def time_bucket (update_delay sec usec : Nat) : Nat :=
  (1000 * (sec % 1000) + usec / 1000) / update_delay

/-- The wait == 1 branch of input_handle (main.c lines 75-82): redraw
(screen_draw) exactly when the computed bucket differs from lastupdate,
recording the bucket when redrawing.  Returns whether a redraw was
performed together with the updated state. -/
def input_handle_throttle (st : ThrottleState) (sec usec : Nat) :
    Bool × ThrottleState :=
  let b := time_bucket st.update_delay sec usec
  if st.lastupdate ≠ b then (true, ⟨b, st.update_delay⟩) else (false, st)

/-- A sequence of throttled ticks at the given (sec, usec) instants:
total number of redraws performed, and the final state. -/
def run_throttle (st : ThrottleState) : List (Nat × Nat) → Nat × ThrottleState
  | [] => (0, st)
  | t :: ts =>
    let r := input_handle_throttle st t.1 t.2
    let rest := run_throttle r.2 ts
    ((if r.1 then 1 else 0) + rest.1, rest.2)

/-! ## main.c: the option parser -/

/-- The parser cursor (main.c lines 116-124): the remaining argument
vector (argc/argv), an unconsumed short-option run (shortopt, never the
empty string when set), the text of the last returned option (last; for a
short option the two-character shortbuf), a pending attached long-option
value (last_arg, the text after '='), and the sticky argument-separator
flag (argsep). -/
structure Argparser where
  args : List (List Char)
  shortopt : Option (List Char)
  last : Option (List Char)
  last_arg : Option (List Char)
  argsep : Bool
deriving DecidableEq

/-- The three return values of argparser_next (main.c line 143):
0 when done, 1 for an option, 2 for a positional argument. -/
inductive ParseEvent where
  | done
  | opt
  | positional
deriving DecidableEq

/-- The die() calls reachable from the parser (main.c lines 145, 150,
180, 220, 276) and from the -X branch (line 206), as structured values
instead of formatted stderr text. -/
inductive ArgErr where
  | unexpectedArg (opt : Option (List Char))
  | invalidDash
  | missingArg (opt : Option (List Char))
  | unknownColor (arg : List Char)
  | unknownOpt (opt : Option (List Char))
deriving DecidableEq

/-- argparser_shortopt (main.c lines 135-141): emit the first letter of
the run as the option "-c" (via shortbuf), and retain the rest of the run
(NULL when empty).  The buf = [] case is unreachable: shortopt is only
ever set to a nonempty remainder. -/
def argparser_shortopt (p : Argparser) (buf : List Char) :
    ParseEvent × Argparser :=
  match buf with
  | [] => (.opt, { p with last := some ['-'], shortopt := none })
  | c :: rest =>
    (.opt, { p with last := some ['-', c],
                    shortopt := if rest.isEmpty then none else some rest })

/-- Split a token at its first '=' (strchr on main.c line 156; the '=' is
overwritten with NUL, leaving the name before it and the value after). -/
def splitEq : List Char → List Char × Option (List Char)
  | [] => ([], none)
  | c :: rest =>
    if c = '=' then ([], some rest)
    else
      let r := splitEq rest
      (c :: r.1, r.2)

/-- argparser_next (main.c lines 144-165).  The source's recursive call
for the "--" separator is inlined: it re-enters the function with argsep
set and shortopt/last_arg still unset, so it returns the next popped
token as a positional argument (or done when none remains). -/
def argparser_next (p : Argparser) : Except ArgErr (ParseEvent × Argparser) :=
  if p.last_arg.isSome then .error (.unexpectedArg p.last)
  else match p.shortopt with
  | some buf => .ok (argparser_shortopt p buf)
  | none =>
    match p.args with
    | [] => .ok (.done, { p with last := none })
    | a :: rest =>
      let q := { p with args := rest, last := some a }
      if p.argsep = true ∨ a = [] ∨ a.head? ≠ some '-' then .ok (.positional, q)
      else if a.drop 1 = [] then .error .invalidDash
      else if a.drop 1 = ['-'] then
        match rest with
        | [] => .ok (.done, { q with args := [], argsep := true, last := none })
        | b :: rest2 =>
          .ok (.positional, { q with args := rest2, argsep := true, last := some b })
      else if a.get? 1 = some '-' then
        match splitEq a with
        | (n, some v) => .ok (.opt, { q with last := some n, last_arg := some v })
        | (_, none) => .ok (.opt, q)
      else .ok (argparser_shortopt q (a.drop 1))

deriving instance DecidableEq for Except

/-- argparser_arg (main.c lines 167-182): a short-run remainder is
consumed first, then a pending attached '=' value, then the next raw
token; with nothing left the "requires an argument" error is fatal. -/
def argparser_arg (p : Argparser) : Except ArgErr (List Char × Argparser) :=
  match p.shortopt with
  | some tmp => .ok (tmp, { p with shortopt := none })
  | none =>
  match p.last_arg with
  | some tmp => .ok (tmp, { p with last_arg := none })
  | none =>
  match p.args with
  | [] => .error (.missingArg p.last)
  | a :: rest => .ok (a, { p with args := rest })

/-- The configuration scalars written by the option parser.  Defaults are
the initializers of main.c lines 38-44; dir_scan_smfs, exclude_kernfs, si,
uic_theme and dir_ui are globals defined outside these two files — their
pre-parse values are irrelevant to the claims, and si, uic_theme and
dir_ui are (re)initialized by argv_parse itself (lines 259-261) before
any option is handled.  The exclude store (exclude_add / exclude_addfile,
external collaborators) is modelled as the two lists of strings handed to
it, with file reading assumed to succeed. -/
structure Config where
  update_delay : Nat := 100
  dir_scan_smfs : Nat := 0
  extended_info : Nat := 0
  read_only : Nat := 0
  dir_ui : Int := -1
  si : Nat := 0
  follow_symlinks : Nat := 0
  cachedir_tags : Nat := 0
  exclude_kernfs : Nat := 0
  follow_firmlinks : Nat := 1
  confirm_quit : Nat := 0
  uic_theme : Nat := 2
  excludes : List (List Char) := []
  excludefiles : List (List Char) := []
deriving DecidableEq

/-- arg_option (main.c lines 187-223): the chain of strcmp comparisons of
argparser_state.last against the recognized option names, in source
order; ARG is argparser_arg.  Returns ok none where the C code returns 0
(token recognized by no branch).  Note line 204 compares against the
literal "--exclude-form". -/
def arg_option (cfg : Config) (p : Argparser) :
    Except ArgErr (Option (Config × Argparser)) :=
  if p.last = some (cs "-q") ∨ p.last = some (cs "--slow-ui-updates") then
    .ok (some ({ cfg with update_delay := 2000 }, p))
  else if p.last = some (cs "--fast-ui-updates") then
    .ok (some ({ cfg with update_delay := 100 }, p))
  else if p.last = some (cs "-x") ∨ p.last = some (cs "--one-file-system") then
    .ok (some ({ cfg with dir_scan_smfs := 1 }, p))
  else if p.last = some (cs "--cross-file-system") then
    .ok (some ({ cfg with dir_scan_smfs := 0 }, p))
  else if p.last = some (cs "-e") ∨ p.last = some (cs "--extended") then
    .ok (some ({ cfg with extended_info := 1 }, p))
  else if p.last = some (cs "--no-extended") then
    .ok (some ({ cfg with extended_info := 0 }, p))
  else if p.last = some (cs "-r") then
    .ok (some ({ cfg with read_only := cfg.read_only + 1 }, p))
  else if p.last = some (cs "-0") then
    .ok (some ({ cfg with dir_ui := 0 }, p))
  else if p.last = some (cs "-1") then
    .ok (some ({ cfg with dir_ui := 1 }, p))
  else if p.last = some (cs "-2") then
    .ok (some ({ cfg with dir_ui := 2 }, p))
  else if p.last = some (cs "--si") then
    .ok (some ({ cfg with si := 1 }, p))
  else if p.last = some (cs "--no-si") then
    .ok (some ({ cfg with si := 0 }, p))
  else if p.last = some (cs "-L") ∨ p.last = some (cs "--follow-symlinks") then
    .ok (some ({ cfg with follow_symlinks := 1 }, p))
  else if p.last = some (cs "--no-follow-symlinks") then
    .ok (some ({ cfg with follow_symlinks := 0 }, p))
  else if p.last = some (cs "--exclude") then
    match argparser_arg p with
    | .error e => .error e
    | .ok (v, p1) => .ok (some ({ cfg with excludes := cfg.excludes ++ [v] }, p1))
  else if p.last = some (cs "-X") ∨ p.last = some (cs "--exclude-form") then
    match argparser_arg p with
    | .error e => .error e
    | .ok (v, p1) =>
      .ok (some ({ cfg with excludefiles := cfg.excludefiles ++ [v] }, p1))
  else if p.last = some (cs "--exclude-caches") then
    .ok (some ({ cfg with cachedir_tags := 1 }, p))
  else if p.last = some (cs "--include-caches") then
    .ok (some ({ cfg with cachedir_tags := 0 }, p))
  else if p.last = some (cs "--exclude-kernfs") then
    .ok (some ({ cfg with exclude_kernfs := 1 }, p))
  else if p.last = some (cs "--include-kernfs") then
    .ok (some ({ cfg with exclude_kernfs := 0 }, p))
  else if p.last = some (cs "--follow-firmlinks") then
    .ok (some ({ cfg with follow_firmlinks := 1 }, p))
  else if p.last = some (cs "--exclude-firmlinks") then
    .ok (some ({ cfg with follow_firmlinks := 0 }, p))
  else if p.last = some (cs "--confirm-quit") then
    .ok (some ({ cfg with confirm_quit := 1 }, p))
  else if p.last = some (cs "--no-confirm-quit") then
    .ok (some ({ cfg with confirm_quit := 0 }, p))
  else if p.last = some (cs "--color") then
    match argparser_arg p with
    | .error e => .error e
    | .ok (v, p1) =>
      if v = cs "off" then .ok (some ({ cfg with uic_theme := 0 }, p1))
      else if v = cs "dark" then .ok (some ({ cfg with uic_theme := 1 }, p1))
      else if v = cs "dark-bg" then .ok (some ({ cfg with uic_theme := 2 }, p1))
      else .error (.unknownColor v)
  else .ok none

/-- The outcome argv_parse leaves behind: the final configuration, the -o
and -f values, the dir local (the last positional argument seen), and —
as an observer of the parse-event stream — every token the parser emitted
as a positional argument (return value 2), in order. -/
structure ParseResult where
  cfg : Config
  exportTo : Option (List Char)
  importFrom : Option (List Char)
  dir : Option (List Char)
  positionals : List (List Char)
deriving DecidableEq

/-- Outcome of running argv_parse: normal return, exit(0) via the help or
version branches, a die() abort, or fuel exhaustion (the C loop always
terminates since every step consumes input; the concrete runs below stay
far below the supplied fuel). -/
inductive ArgvOutcome where
  | ok (r : ParseResult)
  | exited
  | err (e : ArgErr)
  | fuelOut
deriving DecidableEq

/-- The while loop of argv_parse (main.c lines 268-277): dispatch each
parse event; positionals set dir, the version options (-v, -V,
--version) and the help options (-h, -?, --help) exit, -o and -f consume
their argument, everything else goes through
arg_option, and an unrecognized option token dies with Unknown option. -/
def argv_parse_loop (fuel : Nat) (acc : ParseResult) (p : Argparser) :
    ArgvOutcome :=
  match fuel with
  | 0 => .fuelOut
  | fuel + 1 =>
    match argparser_next p with
    | .error e => .err e
    | .ok (.done, _) => .ok acc
    | .ok (.positional, p1) =>
      match p1.last with
      | some a =>
        argv_parse_loop fuel
          { acc with dir := some a, positionals := acc.positionals ++ [a] } p1
      | none => .err (.unknownOpt none)
    | .ok (.opt, p1) =>
      if p1.last = some (cs "-v") ∨ p1.last = some (cs "-V") ∨
          p1.last = some (cs "--version") then .exited
      else if p1.last = some (cs "-h") ∨ p1.last = some (cs "-?") ∨
          p1.last = some (cs "--help") then .exited
      else if p1.last = some (cs "-o") then
        match argparser_arg p1 with
        | .error e => .err e
        | .ok (v, p2) => argv_parse_loop fuel { acc with exportTo := some v } p2
      else if p1.last = some (cs "-f") then
        match argparser_arg p1 with
        | .error e => .err e
        | .ok (v, p2) => argv_parse_loop fuel { acc with importFrom := some v } p2
      else
        match arg_option acc.cfg p1 with
        | .error e => .err e
        | .ok none => .err (.unknownOpt p1.last)
        | .ok (some (cfg1, p2)) => argv_parse_loop fuel { acc with cfg := cfg1 } p2

/-- argv_parse (main.c lines 253-277) up to the end of its option loop:
initialize uic_theme from the NO_COLOR environment variable, dir_ui and
si (lines 259-261), zero the parser state, discard the program name with
one argparser_next call, then run the loop.  The post-loop backend
selection is outside the parsing claims. -/
def argv_parse (no_color : Bool) (argv : List (List Char)) : ArgvOutcome :=
  let cfg0 : Config := { uic_theme := if no_color then 0 else 2, dir_ui := -1, si := 0 }
  let p0 : Argparser :=
    { args := argv, shortopt := none, last := none, last_arg := none, argsep := false }
  match argparser_next p0 with
  | .error e => .err e
  | .ok (_, p1) =>
    argv_parse_loop 1000 ⟨cfg0, none, none, none, []⟩ p1

/-- Observer for the concrete parses below: the settings C6 is about
(dir_scan_smfs, update_delay), the emitted positionals and dir. -/
def outcome_summary (o : ArgvOutcome) :
    Option (Nat × Nat × List (List Char) × Option (List Char)) :=
  match o with
  | .ok r => some (r.cfg.dir_scan_smfs, r.cfg.update_delay, r.positionals, r.dir)
  | _ => none

/-- Observer: the files handed to the exclude store (exclude_addfile). -/
def outcome_excludefiles (o : ArgvOutcome) : Option (List (List Char)) :=
  match o with
  | .ok r => some r.cfg.excludefiles
  | _ => none

/-! ## Helper lemmas -/

theorem strrchr_idx_eq_none_of_not_mem {s : List Char} {c : Char} (h : c ∉ s) :
    strrchr_idx s c = none := by
  induction s with
  | nil => rfl
  | cons a s ih =>
    have ha : a ≠ c := fun e => h (e ▸ List.mem_cons_self a s)
    have hs : c ∉ s := fun e => h (List.mem_cons_of_mem a e)
    simp [strrchr_idx, ih hs, ha]

theorem strrchr_idx_append_last {xs ys : List Char} {c : Char} (h : c ∉ ys) :
    strrchr_idx (xs ++ c :: ys) c = some xs.length := by
  induction xs with
  | nil => simp [strrchr_idx, strrchr_idx_eq_none_of_not_mem h]
  | cons a xs ih => simp [strrchr_idx, ih]

theorem splitEq_append {xs ys : List Char} (h : '=' ∉ xs) :
    splitEq (xs ++ '=' :: ys) = (xs, some ys) := by
  induction xs with
  | nil => simp [splitEq]
  | cons a xs ih =>
    have ha : a ≠ '=' := fun e => h (e ▸ List.mem_cons_self a xs)
    have hs : '=' ∉ xs := fun e => h (List.mem_cons_of_mem a e)
    simp [splitEq, ha, ih hs]

/-! ## The claims -/

/-- C9: dir_curpath_leave applied to "/" leaves the path equal to "/"
(the last '/' is the first character, so only tmp[1] is zeroed), and
applied to a path containing no '/' it resets the path to "/" (the
strrchr call returns NULL). -/
theorem dir_curpath_leave_root_and_noslash :
    dir_curpath_leave (cs "/") = cs "/" ∧
    ∀ s : List Char, '/' ∉ s → dir_curpath_leave s = cs "/" := by
  constructor
  · decide
  · intro s h
    simp [dir_curpath_leave, strrchr_idx_eq_none_of_not_mem h, cs]

/-- C2: entering a segment and immediately leaving restores the previous
path, for every starting value of CurrentPath — "/" itself, or any path
of at least two characters, which covers every well-formed absolute path
(the C code reads dir_curpath[1], so the empty and one-character cases
other than "/" are outside the buffer's defined contents) — and every
segment name, a string without '/'. -/
theorem enter_leave_roundtrip (s name : List Char)
    (hs : s = cs "/" ∨ 2 ≤ s.length) (hn : '/' ∉ name) :
    dir_curpath_leave (dir_curpath_enter s name) = s := by
  rcases hs with hs | hs
  · subst hs
    have h0 : strrchr_idx (([] : List Char) ++ '/' :: name) '/' = some 0 :=
      strrchr_idx_append_last hn
    simp only [List.nil_append] at h0
    simp [dir_curpath_enter, dir_curpath_leave, cs, h0]
  · have hlen : ¬ s.length = 0 := by omega
    have happ : strrchr_idx (s ++ '/' :: name) '/' = some s.length :=
      strrchr_idx_append_last hn
    simp [dir_curpath_enter, hs, dir_curpath_leave, happ, hlen, List.take_left]

/-- C2 witness: the round trip at the concrete path "/usr" and segment
"lib". -/
theorem enter_leave_roundtrip_witness :
    dir_curpath_leave (dir_curpath_enter (cs "/usr") (cs "lib")) = cs "/usr" :=
  enter_leave_roundtrip (cs "/usr") (cs "lib") (by decide) (by decide)

/-- C1: evaluation at a failing input.  With dir_curpath = "/a/b", the
call dir_setlasterr("x") replaces the previously recorded error and
leaves dir_fatalerr unchanged, but what it stores is dir_curpath
("/a/b"), not the argument "x": line 87 of dir_common.c copies
dir_curpath into the lasterr buffer (which line 85 sized from the
argument, an overflow whenever dir_curpath is longer). -/
theorem dir_setlasterr_stores_curpath_not_path :
    (dir_setlasterr ⟨cs "/a/b", some (cs "/old"), some (cs "boom")⟩
        (some (cs "x"))).lasterr = some (cs "/a/b") ∧
    (dir_setlasterr ⟨cs "/a/b", some (cs "/old"), some (cs "boom")⟩
        (some (cs "x"))).lasterr ≠ some (cs "x") ∧
    (dir_setlasterr ⟨cs "/a/b", some (cs "/old"), some (cs "boom")⟩
        (some (cs "x"))).dir_fatalerr = some (cs "boom") := by
  refine ⟨rfl, by decide, rfl⟩

/-- C3 counterexample: with the terminal subsystem uninitialized, a
blocking tick (input_handle with wait = 0, main.c line 86) returns 1 —
the Terminate signal — and not the keep-going signal 0 the claim states
for the blocking policy. -/
theorem input_handle_uninit_block_terminates :
    input_handle_read_gate false 0 = .skipRead 1 ∧
    input_handle_read_gate false 0 ≠ .skipRead 0 := by
  decide

/-- C3 amended: whenever ncurses has not been initialized, input_handle
skips input reading entirely and returns the keep-going signal (0) for
the throttled (wait = 1) and non-blocking (wait = -1) policies, while
for the blocking policy (wait = 0) it returns the Terminate signal (1). -/
theorem input_handle_uninit_gate :
    input_handle_read_gate false 1 = .skipRead 0 ∧
    input_handle_read_gate false (-1) = .skipRead 0 ∧
    input_handle_read_gate false 0 = .skipRead 1 := by
  decide

/-- C8: dir_seterr with a message always stores exactly the (truncated)
new message whatever the previous fatal state was — lines 92-93 free and
clear the old buffer before anything else; dir_seterr(NULL) leaves the
fatal state cleared; and dir_draw renders the non-modal progress window,
not the modal error box, whenever no fatal error is set. -/
theorem dir_seterr_full_replace_and_draw (st : DirState) (m : List Char) :
    (dir_seterr st (some m)).dir_fatalerr = some (m.take 1022) ∧
    (dir_seterr st none).dir_fatalerr = none ∧
    dir_draw_kind (dir_seterr st none) = .progress ∧
    ∀ st' : DirState, st'.dir_fatalerr = none → dir_draw_kind st' = .progress := by
  refine ⟨rfl, rfl, rfl, ?_⟩
  intro st' h
  simp [dir_draw_kind, h]

/-- C10: a non-clearing dir_seterr call stores a message of at most 1023
characters (in fact at most 1022: vsnprintf's size argument 1023 counts
the NUL terminator it always writes, and byte 1023 of the 1024-byte
buffer is zeroed as well, so the terminator always fits); formatted
output longer than 1023 characters is stored truncated — a proper
prefix — rather than in full. -/
theorem dir_seterr_bounded_and_truncated (st : DirState) (m : List Char) :
    ∃ s : List Char, (dir_seterr st (some m)).dir_fatalerr = some s ∧
      s.length ≤ 1023 ∧ (1023 < m.length → s ≠ m ∧ s <+: m) := by
  refine ⟨m.take 1022, rfl, ?_, ?_⟩
  · calc (m.take 1022).length ≤ 1022 := by
          simp
      _ ≤ 1023 := by omega
  · intro h
    constructor
    · intro e
      have : (m.take 1022).length = 1022 := by
        simp [List.length_take]
        omega
      rw [e] at this
      omega
    · exact List.take_prefix 1022 m

theorem run_throttle_same_bucket {st : ThrottleState} {ts : List (Nat × Nat)}
    {B : Nat} (h1 : st.lastupdate = B)
    (hB : ∀ t ∈ ts, time_bucket st.update_delay t.1 t.2 = B) :
    run_throttle st ts = (0, st) := by
  induction ts with
  | nil => rfl
  | cons t ts ih =>
    have hb : time_bucket st.update_delay t.1 t.2 = B :=
      hB t (List.mem_cons_self t ts)
    have hnot : ¬ st.lastupdate ≠ time_bucket st.update_delay t.1 t.2 := by
      simp [h1, hb]
    have hrest : run_throttle st ts = (0, st) :=
      ih (fun u hu => hB u (List.mem_cons_of_mem t hu))
    simp [run_throttle, input_handle_throttle, hnot, hrest]

/-- C4: for every sequence of throttled ticks whose wall-clock instants
all fall in the same time bucket B — milliseconds within the 1000-second
cycle divided by update_delay — at most one tick performs a redraw, from
any starting lastupdate; and a single throttled tick redraws exactly
when its computed bucket differs from the recorded lastupdate. -/
theorem throttle_at_most_one_redraw (st : ThrottleState)
    (ts : List (Nat × Nat)) (B : Nat)
    (hB : ∀ t ∈ ts, time_bucket st.update_delay t.1 t.2 = B) :
    (run_throttle st ts).1 ≤ 1 ∧
    ∀ sec usec : Nat, (input_handle_throttle st sec usec).1 = true ↔
      st.lastupdate ≠ time_bucket st.update_delay sec usec := by
  constructor
  · by_cases h : st.lastupdate = B
    · rw [run_throttle_same_bucket h hB]
      simp
    · match ts, hB with
      | [], _ => simp [run_throttle]
      | t :: ts, hB =>
        have hb : time_bucket st.update_delay t.1 t.2 = B :=
          hB t (List.mem_cons_self t ts)
        have hne : st.lastupdate ≠ time_bucket st.update_delay t.1 t.2 := by
          rw [hb]; exact h
        have hrest :
            run_throttle ⟨B, st.update_delay⟩ ts = (0, ⟨B, st.update_delay⟩) :=
          run_throttle_same_bucket rfl
            (fun u hu => hB u (List.mem_cons_of_mem t hu))
        simp [run_throttle, input_handle_throttle, hne, hb, h, hrest]
  · intro sec usec
    by_cases h : st.lastupdate = time_bucket st.update_delay sec usec <;>
      simp [input_handle_throttle, h]

/-- C4 witness: three throttled ticks in bucket 50 (update_delay 100,
second 5 of the cycle) from the initial lastupdate 999 redraw once. -/
theorem throttle_at_most_one_redraw_witness :
    (run_throttle ⟨999, 100⟩ [(5, 1000), (5, 2000), (5, 9000)]).1 ≤ 1 ∧
    ∀ sec usec : Nat,
      (input_handle_throttle ⟨999, 100⟩ sec usec).1 = true ↔
      (999 : Nat) ≠ time_bucket 100 sec usec :=
  throttle_at_most_one_redraw ⟨999, 100⟩ [(5, 1000), (5, 2000), (5, 9000)] 50
    (by decide)

/-- C5: evaluation at the failing input.  Parsing the arguments
--exclude-from FILE aborts with the fatal Unknown option error naming
--exclude-from (main.c line 276), because the strcmp on line 204 spells
the long form --exclude-form, contradicting the program's own help text
(line 238, "-X, --exclude-from FILE"); the misspelled --exclude-form is
what reaches the exclude-from-file handler (-X). -/
theorem exclude_from_is_unknown_option :
    argv_parse false [cs "ncdu", cs "--exclude-from", cs "pats"]
        = .err (.unknownOpt (some (cs "--exclude-from"))) ∧
    outcome_excludefiles
        (argv_parse false [cs "ncdu", cs "--exclude-form", cs "pats"])
        = some [cs "pats"] := by
  decide

/-- C6: parsing ["-x","-q","--","-weird"] (after the program name)
succeeds, enables the one-file-system setting (dir_scan_smfs = 1), sets
update_delay to 2000 ms, and the parser emits exactly one positional
argument, the literal token "-weird", which becomes dir; the "--"
separator itself is never emitted as an event. -/
theorem argv_parse_separator_example :
    outcome_summary
        (argv_parse false [cs "ncdu", cs "-x", cs "-q", cs "--", cs "-weird"])
        = some (1, 2000, [cs "-weird"], some (cs "-weird")) := by
  decide

/-- C7: when a parse step returns a long option carrying an attached
"=value" (which the step leaves pending in last_arg) and the value is
not retrieved by argparser_arg before the next step, that next step
fails with the "does not expect an argument" error naming the option
(main.c line 145). -/
theorem unconsumed_attached_value_fails (p : Argparser) (name val : List Char)
    (rest : List (List Char))
    (hargs : p.args = ('-' :: '-' :: (name ++ '=' :: val)) :: rest)
    (hname : '=' ∉ name)
    (hla : p.last_arg = none) (hso : p.shortopt = none) (hsep : p.argsep = false) :
    argparser_next p =
      .ok (.opt, ⟨rest, none, some ('-' :: '-' :: name), some val, false⟩) ∧
    argparser_next ⟨rest, none, some ('-' :: '-' :: name), some val, false⟩ =
      .error (.unexpectedArg (some ('-' :: '-' :: name))) := by
  have h2 : '=' ∉ ('-' :: '-' :: name) := by
    intro h
    simp at h
    exact hname h
  have hsplit : splitEq ('-' :: '-' :: (name ++ '=' :: val))
      = ('-' :: '-' :: name, some val) := by
    have h3 := @splitEq_append ('-' :: '-' :: name) val h2
    simpa using h3
  obtain ⟨a1, a2, a3, a4, a5⟩ := p
  simp only [] at hargs hla hso hsep
  subst hargs hla hso hsep
  constructor
  · simp [argparser_next, hsplit, List.append_eq_nil]
  · simp [argparser_next]

/-- C7 witness: the token "--color=dark" (the --color option is declared
to take a value) parses to the --color option with "dark" pending, and
the following step, with the value unconsumed, fails naming --color. -/
theorem unconsumed_attached_value_fails_witness :
    argparser_next
        ⟨[ '-' :: '-' :: (['c', 'o', 'l', 'o', 'r'] ++ '=' :: ['d', 'a', 'r', 'k'])],
          none, none, none, false⟩ =
      .ok (.opt, ⟨[], none, some ('-' :: '-' :: ['c', 'o', 'l', 'o', 'r']),
        some ['d', 'a', 'r', 'k'], false⟩) ∧
    argparser_next
        ⟨[], none, some ('-' :: '-' :: ['c', 'o', 'l', 'o', 'r']),
          some ['d', 'a', 'r', 'k'], false⟩ =
      .error (.unexpectedArg (some ('-' :: '-' :: ['c', 'o', 'l', 'o', 'r']))) :=
  unconsumed_attached_value_fails
    ⟨[ '-' :: '-' :: (['c', 'o', 'l', 'o', 'r'] ++ '=' :: ['d', 'a', 'r', 'k'])],
      none, none, none, false⟩
    ['c', 'o', 'l', 'o', 'r'] ['d', 'a', 'r', 'k'] [] rfl (by decide) rfl rfl rfl

end TMDU
